import Mathlib

/-!
Verification of the roadrpc dispatch engine (src/roadrpc/rpc.py).

The Python source is shallowly embedded: JSON values decoded by the host
language are modelled by `JValue` (Python `None` is `JValue.null`), Python
dicts by association lists with unique keys, exceptions by the `PyExn`
sum carried in `Except`.  The dispatch pipeline `RPCServer.call` is
instrumented with an event trace recording which middleware hooks and
handlers actually ran; the un-instrumented result is the first component.
-/

/-- A decoded JSON value, as produced by the host decoder.  Python `None`
(JSON `null`) is `null`; object fields keep decoder order and have unique
keys, matching Python dict semantics. -/
inductive JValue where
  | null
  | bool (b : Bool)
  | num (n : Int)
  | str (s : String)
  | arr (elems : List JValue)
  | obj (fields : List (String × JValue))

/-- Python `d.get(k)` on a string-keyed dict: the stored value, or `none`
when the key is absent. -/
def dictGet {α : Type} : List (String × α) → String → Option α
  | [], _ => none
  | (k0, v) :: rest, k => if k0 = k then some v else dictGet rest k

/-- Python `d[k] = v`: overwrite in place when the key exists, else append. -/
def dictInsert {α : Type} : List (String × α) → String → α → List (String × α)
  | [], k, v => [(k, v)]
  | (k0, v0) :: rest, k, v =>
      if k0 = k then (k, v) :: rest else (k0, v0) :: dictInsert rest k v

/-- Python `del d[k]` on a unique-key dict (removes every binding of `k`). -/
def dictDelete {α : Type} : List (String × α) → String → List (String × α)
  | [], _ => []
  | (k0, v) :: rest, k =>
      if k0 = k then dictDelete rest k else (k0, v) :: dictDelete rest k

/-- Python `data.get(k, dflt)`: the stored value (even when it is `null`),
or the default when the key is absent. -/
def jGetD (data : List (String × JValue)) (k : String) (dflt : JValue) : JValue :=
  (dictGet data k).getD dflt

/-- Python `data.get(k)` viewed through the Python `None` convention: a
stored JSON `null` decodes to Python `None`, indistinguishable from an
absent key. -/
def jGetOpt (data : List (String × JValue)) (k : String) : Option JValue :=
  match dictGet data k with
  | some JValue.null => none
  | some v => some v
  | none => none

/-- `RPCErrorCode.PARSE_ERROR` from the source enum. -/
def RPCErrorCode.PARSE_ERROR : Int := -32700

/-- `RPCErrorCode.INVALID_REQUEST` from the source enum. -/
def RPCErrorCode.INVALID_REQUEST : Int := -32600

/-- `RPCErrorCode.METHOD_NOT_FOUND` from the source enum. -/
def RPCErrorCode.METHOD_NOT_FOUND : Int := -32601

/-- `RPCErrorCode.INVALID_PARAMS` from the source enum. -/
def RPCErrorCode.INVALID_PARAMS : Int := -32602

/-- `RPCErrorCode.INTERNAL_ERROR` from the source enum. -/
def RPCErrorCode.INTERNAL_ERROR : Int := -32603

/-- `RPCErrorCode.SERVER_ERROR` from the source enum. -/
def RPCErrorCode.SERVER_ERROR : Int := -32000

/-- The `RPCError` exception payload: code, message, and optional data
(`data = JValue.null` models the Python default `data=None`). -/
structure RPCError where
  code : Int
  message : String
  data : JValue := JValue.null

/-- `RPCError.to_dict`: `{"code": .., "message": ..}` plus `"data"` only
when it is not `None`. -/
def RPCError.to_dict (e : RPCError) : List (String × JValue) :=
  [("code", JValue.num e.code), ("message", JValue.str e.message)] ++
    (match e.data with
     | JValue.null => []
     | d => [("data", d)])

/-- A Python exception as seen by the engine: an `RPCError`, a `TypeError`
(caught as invalid params), or any other `Exception`.  The carried string
is the result of Python `str(e)` (quote characters in Python attribute
error texts are elided). -/
inductive PyExn where
  | rpcError (e : RPCError)
  | typeError (msg : String)
  | other (msg : String)

/-- Python `str(e)` on an exception; for `RPCError` this is the message
passed to `super().__init__`. -/
def PyExn.str : PyExn → String
  | PyExn.rpcError e => e.message
  | PyExn.typeError m => m
  | PyExn.other m => m

/-- The `RPCRequest` dataclass.  `method`, `params` and `jsonrpc` hold
whatever `from_dict` extracted (the Python annotations are not enforced);
`id = none` models Python `id is None`. -/
structure RPCRequest where
  method : JValue
  params : JValue := JValue.arr []
  id : Option JValue := none
  jsonrpc : JValue := JValue.str "2.0"

/-- `RPCRequest.from_dict` on a decoded dict: `method` defaults to the
empty string, `params` to `[]`, `id` to `None`, `jsonrpc` to `"2.0"`. -/
def RPCRequest.from_dict (data : List (String × JValue)) : RPCRequest :=
  { method := jGetD data "method" (JValue.str "")
    params := jGetD data "params" (JValue.arr [])
    id := jGetOpt data "id"
    jsonrpc := jGetD data "jsonrpc" (JValue.str "2.0") }

/-- Python message of the `AttributeError` raised by `x.get(..)` when `x`
is not a dict (quote characters elided). -/
def attrErrGet (t : String) : String :=
  t ++ " object has no attribute get"

/-- The Python type name of a decoded value, as it appears in
`AttributeError` messages. -/
def pyTypeName : JValue → String
  | JValue.null => "NoneType"
  | JValue.bool _ => "bool"
  | JValue.num _ => "int"
  | JValue.str _ => "str"
  | JValue.arr _ => "list"
  | JValue.obj _ => "dict"

/-- `RPCRequest.from_dict(item)` as an expression: on a non-dict argument
the attribute access `data.get` raises `AttributeError`. -/
def RPCRequest.fromDictE : JValue → Except PyExn RPCRequest
  | JValue.obj fields => Except.ok (RPCRequest.from_dict fields)
  | v => Except.error (PyExn.other (attrErrGet (pyTypeName v)))

/-- `RPCRequest.to_dict`: always emits `jsonrpc`, `method`, `params`;
emits `id` only when it is not `None`. -/
def RPCRequest.to_dict (r : RPCRequest) : List (String × JValue) :=
  [("jsonrpc", r.jsonrpc), ("method", r.method), ("params", r.params)] ++
    (match r.id with
     | some i => [("id", i)]
     | none => [])

/-- `RPCRequest.is_notification`: the id is `None`. -/
def RPCRequest.is_notification (r : RPCRequest) : Bool :=
  r.id.isNone

/-- The `RPCResponse` dataclass; `error` stores the dict produced by
`RPCError.to_dict` (or any dict, as in Python). -/
structure RPCResponse where
  result : JValue := JValue.null
  error : Option (List (String × JValue)) := none
  id : Option JValue := none
  jsonrpc : JValue := JValue.str "2.0"

/-- `RPCResponse.success(result, id)`. -/
def RPCResponse.success (result : JValue) (id : Option JValue := none) : RPCResponse :=
  { result := result, id := id }

/-- `RPCResponse.failure(error, id)`. -/
def RPCResponse.failure (error : RPCError) (id : Option JValue := none) : RPCResponse :=
  { error := some error.to_dict, id := id }

/-- `RPCResponse.to_dict`: always emits `jsonrpc` and `id` (Python `None`
becomes JSON `null`); emits `error` when the error dict is truthy
(non-empty), otherwise `result`. -/
def RPCResponse.to_dict (r : RPCResponse) : List (String × JValue) :=
  [("jsonrpc", r.jsonrpc), ("id", r.id.getD JValue.null)] ++
    (match r.error with
     | some e => if e.isEmpty then [("result", r.result)] else [("error", JValue.obj e)]
     | none => [("result", r.result)])

/-- Modelled from the spec: the source has no Response decoder (the wire
section of the spec gives the response envelope, and the round-trip
property of the spec needs an inverse of `RPCResponse.to_dict`); this
reads the fields of the envelope back, with `null` id meaning absent. -/
def RPCResponse.fromDictSpec (data : List (String × JValue)) : RPCResponse :=
  { result := jGetD data "result" JValue.null
    error :=
      match dictGet data "error" with
      | some (JValue.obj e) => some e
      | _ => none
    id := jGetOpt data "id"
    jsonrpc := jGetD data "jsonrpc" (JValue.str "2.0") }

/-- How a Python callable is invoked by the engine (lines 242-247 of the
source): keyword arguments from a dict, positional from a list, or no
arguments at all. -/
inductive CallArgs where
  | named (kwargs : List (String × JValue))
  | positional (args : List JValue)
  | noArgs

/-- A registered handler: receives the chosen argument shape and either
returns a value or raises. -/
def Handler : Type := CallArgs → Except PyExn JValue

/-- The `RPCMethod` dataclass. -/
structure RPCMethod where
  name : String
  handler : Handler
  description : String := ""
  params_schema : List (String × JValue) := []
  metadata : List (String × JValue) := []

/-- A middleware object: the three hook methods, whose defaults are the
no-op bodies of the `RPCMiddleware` base class. -/
structure RPCMiddleware where
  before_call : RPCRequest → Except PyExn RPCRequest := fun r => Except.ok r
  after_call : RPCRequest → RPCResponse → Except PyExn RPCResponse := fun _ r => Except.ok r
  on_error : RPCRequest → PyExn → Except PyExn (Option RPCResponse) := fun _ _ => Except.ok none

/-- Python message of the `AttributeError` raised by `request.metadata`:
`RPCRequest` declares no `metadata` field (quote characters elided). -/
def attrErrMetadata : String :=
  "RPCRequest object has no attribute metadata"

/-- `TimingMiddleware`: both hooks start by reading `request.metadata`,
which raises `AttributeError` because `RPCRequest` has no such field. -/
def TimingMiddleware : RPCMiddleware :=
  { before_call := fun _ => Except.error (PyExn.other attrErrMetadata)
    after_call := fun _ _ => Except.error (PyExn.other attrErrMetadata) }

/-- `AuthMiddleware(validator)`: `before_call` reads `request.metadata`
before consulting the validator, so it raises `AttributeError` on every
request regardless of the validator. -/
def AuthMiddleware (_validator : String → Bool) : RPCMiddleware :=
  { before_call := fun _ => Except.error (PyExn.other attrErrMetadata) }

/-- The `RPCServer`: method registry and middleware chain.  The threading
lock only serializes registry mutation and has no observable effect in the
sequential model. -/
structure RPCServer where
  methods : List (String × RPCMethod) := []
  middleware : List RPCMiddleware := []

/-- `RPCServer.register`: insert or silently overwrite. -/
def RPCServer.register (s : RPCServer) (name : String) (handler : Handler)
    (description : String := "") : RPCServer :=
  let m : RPCMethod := { name := name, handler := handler, description := description }
  { s with methods := dictInsert s.methods name m }

/-- `RPCServer.unregister`: remove the entry and report whether it
existed. -/
def RPCServer.unregister (s : RPCServer) (name : String) : Bool × RPCServer :=
  match dictGet s.methods name with
  | some _ => (true, { s with methods := dictDelete s.methods name })
  | none => (false, s)

/-- `self.methods.get(name)`: registry lookup, never throws on a string
key. -/
def RPCServer.lookup (s : RPCServer) (name : String) : Option RPCMethod :=
  dictGet s.methods name

/-- `self.methods.get(request.method)` for an arbitrary decoded method
value: string keys are looked up, other hashable values are simply not
found, and unhashable values (list, dict) raise `TypeError` outside every
try block of `call`. -/
def methodLookupE (methods : List (String × RPCMethod)) : JValue → Except PyExn (Option RPCMethod)
  | JValue.str name => Except.ok (dictGet methods name)
  | JValue.arr _ => Except.error (PyExn.typeError "unhashable type: list")
  | JValue.obj _ => Except.error (PyExn.typeError "unhashable type: dict")
  | _ => Except.ok none

/-- Python f-string rendering of a decoded value, used only in the method
not found message (list/dict renderings are approximate and unreachable:
an unhashable method raises before the message is built). -/
def JValue.pyStr : JValue → String
  | JValue.null => "None"
  | JValue.bool true => "True"
  | JValue.bool false => "False"
  | JValue.num n => toString n
  | JValue.str s => s
  | JValue.arr _ => "<list>"
  | JValue.obj _ => "<dict>"

/-- Lines 242-250 of `call`: choose the invocation shape from the params
value and run the handler (awaiting a coroutine result is the identity in
this sequential model). -/
def execMethod (m : RPCMethod) (params : JValue) : Except PyExn JValue :=
  match params with
  | JValue.obj kvs => m.handler (CallArgs.named kvs)
  | JValue.arr xs => m.handler (CallArgs.positional xs)
  | _ => m.handler CallArgs.noArgs

/-- Trace events recording what the instrumented pipeline actually ran. -/
inductive Event where
  | beforeHook (i : Nat)
  | handlerRun (name : String)
  | errorHook (i : Nat)
  | afterHook (i : Nat)
deriving DecidableEq

/-- The `before_call` loop of `call` (lines 221-230): each hook receives
the previous output; the first exception stops the loop, keeping the
request as transformed so far. -/
def runBeforeT : List RPCMiddleware → Nat → RPCRequest →
    (RPCRequest × Option PyExn) × List Event
  | [], _, req => ((req, none), [])
  | mw :: rest, i, req =>
      match mw.before_call req with
      | Except.ok req2 =>
          let r := runBeforeT rest (i + 1) req2
          (r.1, Event.beforeHook i :: r.2)
      | Except.error e => ((req, some e), [])

/-- The `on_error` loop of `call` (lines 262-272): first hook returning a
truthy (non-`None`) response wins; a hook that itself raises propagates. -/
def runOnErrorT : List RPCMiddleware → Nat → RPCRequest → PyExn →
    Except PyExn (Option RPCResponse) × List Event
  | [], _, _, _ => (Except.ok none, [])
  | mw :: rest, i, req, exn =>
      match mw.on_error req exn with
      | Except.ok (some resp) => (Except.ok (some resp), [Event.errorHook i])
      | Except.ok none =>
          let r := runOnErrorT rest (i + 1) req exn
          (r.1, Event.errorHook i :: r.2)
      | Except.error e => (Except.error e, [Event.errorHook i])

/-- The `after_call` loop of `call` (lines 274-276): each hook transforms
the running response; a hook that raises propagates to the caller. -/
def runAfterT : List RPCMiddleware → Nat → RPCRequest → RPCResponse →
    Except PyExn RPCResponse × List Event
  | [], _, _, resp => (Except.ok resp, [])
  | mw :: rest, i, req, resp =>
      match mw.after_call req resp with
      | Except.ok resp2 =>
          let r := runAfterT rest (i + 1) req resp2
          (r.1, Event.afterHook i :: r.2)
      | Except.error e => (Except.error e, [Event.afterHook i])

/-- The method execution stage of `call` (lines 240-272): handler result
on success; `RPCError` verbatim; `TypeError` as invalid params; any other
exception offered to the `on_error` chain with the internal error
fallback. -/
def execStageT (s : RPCServer) (req : RPCRequest) (m : RPCMethod) :
    Except PyExn RPCResponse × List Event :=
  match execMethod m req.params with
  | Except.ok result =>
      (Except.ok (RPCResponse.success result req.id), [Event.handlerRun m.name])
  | Except.error (PyExn.rpcError e) =>
      (Except.ok (RPCResponse.failure e req.id), [Event.handlerRun m.name])
  | Except.error (PyExn.typeError msg) =>
      (Except.ok (RPCResponse.failure
        { code := RPCErrorCode.INVALID_PARAMS, message := msg } req.id),
       [Event.handlerRun m.name])
  | Except.error (PyExn.other msg) =>
      match runOnErrorT s.middleware 0 req (PyExn.other msg) with
      | (Except.ok (some resp), trE) => (Except.ok resp, Event.handlerRun m.name :: trE)
      | (Except.ok none, trE) =>
          (Except.ok (RPCResponse.failure
            { code := RPCErrorCode.INTERNAL_ERROR, message := msg } req.id),
           Event.handlerRun m.name :: trE)
      | (Except.error e, trE) => (Except.error e, Event.handlerRun m.name :: trE)

/-- `RPCServer.call` (lines 218-282), instrumented with a trace.  A
`before_call` `RPCError` or generic exception is an early return that
skips the notification check; method lookup failure is likewise an early
return; otherwise the response runs through the `after_call` chain and is
discarded for notifications. -/
def RPCServer.callT (s : RPCServer) (request : RPCRequest) :
    Except PyExn (Option RPCResponse) × List Event :=
  match runBeforeT s.middleware 0 request with
  | ((req, some (PyExn.rpcError e)), tr) =>
      (Except.ok (some (RPCResponse.failure e req.id)), tr)
  | ((req, some exn), tr) =>
      (Except.ok (some (RPCResponse.failure
        { code := RPCErrorCode.INTERNAL_ERROR, message := exn.str } req.id)), tr)
  | ((req, none), tr) =>
      match methodLookupE s.methods req.method with
      | Except.error exn => (Except.error exn, tr)
      | Except.ok none =>
          (Except.ok (some (RPCResponse.failure
            { code := RPCErrorCode.METHOD_NOT_FOUND,
              message := "Method not found: " ++ req.method.pyStr } req.id)), tr)
      | Except.ok (some m) =>
          match execStageT s req m with
          | (Except.error exn, tr2) => (Except.error exn, tr ++ tr2)
          | (Except.ok resp, tr2) =>
              match runAfterT s.middleware 0 req resp with
              | (Except.error exn, tr3) => (Except.error exn, tr ++ tr2 ++ tr3)
              | (Except.ok resp2, tr3) =>
                  (Except.ok (if req.is_notification then none else some resp2),
                   tr ++ tr2 ++ tr3)

/-- `RPCServer.call`: the un-instrumented result. -/
def RPCServer.call (s : RPCServer) (request : RPCRequest) :
    Except PyExn (Option RPCResponse) :=
  (s.callT request).1

/-- The text boundary of `handle_json`: either the decoder produced a
value or `json.loads` raised with some message. -/
inductive JsonText where
  | decoded (v : JValue)
  | malformed (msg : String)

/-- The batch loop of `handle_json` (lines 300-305): decode and call each
element in order, collecting truthy responses; any exception aborts the
loop and propagates. -/
def handleJsonBatch (s : RPCServer) : List JValue → Except PyExn (List JValue)
  | [] => Except.ok []
  | item :: rest =>
      match RPCRequest.fromDictE item with
      | Except.error e => Except.error e
      | Except.ok req =>
          match s.call req with
          | Except.error e => Except.error e
          | Except.ok resp =>
              match handleJsonBatch s rest with
              | Except.error e => Except.error e
              | Except.ok tail =>
                  Except.ok (match resp with
                    | some r => JValue.obj r.to_dict :: tail
                    | none => tail)

/-- `RPCServer.handle_json` (lines 284-315).  The output is `none` for
the empty string (suppressed notification), otherwise the value whose
dump is returned. -/
def RPCServer.handle_json (s : RPCServer) (input : JsonText) :
    Except PyExn (Option JValue) :=
  match input with
  | JsonText.malformed msg =>
      Except.ok (some (JValue.obj (RPCResponse.to_dict
        (RPCResponse.failure { code := RPCErrorCode.PARSE_ERROR, message := msg }))))
  | JsonText.decoded (JValue.arr items) =>
      if items.isEmpty then
        Except.ok (some (JValue.obj (RPCResponse.to_dict
          (RPCResponse.failure
            { code := RPCErrorCode.INVALID_REQUEST, message := "Empty batch" }))))
      else
        match handleJsonBatch s items with
        | Except.ok outs => Except.ok (some (JValue.arr outs))
        | Except.error e => Except.error e
  | JsonText.decoded data =>
      match RPCRequest.fromDictE data with
      | Except.error e => Except.error e
      | Except.ok req =>
          match s.call req with
          | Except.error e => Except.error e
          | Except.ok (some resp) => Except.ok (some (JValue.obj resp.to_dict))
          | Except.ok none => Except.ok none

/-- A value Python can hash: everything except lists and dicts, so a
registry lookup on it cannot raise. -/
def JValue.hashable : JValue → Bool
  | JValue.arr _ => false
  | JValue.obj _ => false
  | _ => true

/-- A value that decodes to a list or an object (the two envelope shapes
`handle_json` handles without raising). -/
def JValue.isContainer : JValue → Bool
  | JValue.arr _ => true
  | JValue.obj _ => true
  | _ => false

/-- Events recording a `before_call` hook run. -/
def isBeforeEvent : Event → Bool
  | Event.beforeHook _ => true
  | _ => false

/-- An `Except` value that is a normal return. -/
def exOk {α : Type} : Except PyExn α → Bool
  | Except.ok _ => true
  | Except.error _ => false

/-- The trace of a full `after_call` chain: hooks `i, i+1, ...` over `n`
stages, in registration order. -/
def afterHookIdx : Nat → Nat → List Event
  | _, 0 => []
  | i, n + 1 => Event.afterHook i :: afterHookIdx (i + 1) n

/-- A batch element that is a dict whose decoded method value is hashable,
so that processing it cannot raise. -/
def isGoodElem : JValue → Bool
  | JValue.obj fields => (jGetD fields "method" (JValue.str "")).hashable
  | _ => false

/-- What one batch element contributes to the output array: its response
dict, or nothing for a suppressed notification or an aborted element.
Stated per element, so the batch output being its `filterMap` is exactly
element independence plus order preservation. -/
def batchElem (s : RPCServer) (item : JValue) : Option JValue :=
  match RPCRequest.fromDictE item with
  | Except.ok req =>
      match s.call req with
      | Except.ok (some r) => some (JValue.obj r.to_dict)
      | _ => none
  | Except.error _ => none

/-- A well-formed request id: a string, a number, or absent. -/
def idWellFormed : Option JValue → Bool
  | none => true
  | some (JValue.str _) => true
  | some (JValue.num _) => true
  | _ => false

/-- A well-formed method: a non-empty identifier string. -/
def methodWellFormed : JValue → Bool
  | JValue.str s => !(s == "")
  | _ => false

/-- Well-formed params: an ordered sequence or a mapping. -/
def paramsWellFormed : JValue → Bool
  | JValue.arr _ => true
  | JValue.obj _ => true
  | _ => false

/-- A well-formed request per the data model section of the spec. -/
def requestWellFormed (r : RPCRequest) : Bool :=
  methodWellFormed r.method && paramsWellFormed r.params && idWellFormed r.id

/-- A well-formed error/result pair: either no error, or a non-empty error
dict with the result unset (exactly one of the two present). -/
def errorWellFormed : Option (List (String × JValue)) → JValue → Bool
  | none, _ => true
  | some [], _ => false
  | some (_ :: _), JValue.null => true
  | some (_ :: _), _ => false

/-- A well-formed response per the data model section of the spec. -/
def responseWellFormed (r : RPCResponse) : Bool :=
  errorWellFormed r.error r.result && idWellFormed r.id

/-- Registry lemma: inserting then looking up the same key finds the
inserted value. -/
theorem dictGet_dictInsert_self {α : Type} (d : List (String × α)) (k : String) (v : α) :
    dictGet (dictInsert d k v) k = some v := by
  induction d with
  | nil => simp [dictInsert, dictGet]
  | cons kv rest ih =>
      by_cases h : kv.1 = k
      · simp [dictInsert, h, dictGet]
      · simp [dictInsert, h, dictGet, ih]

/-- Registry lemma: deleting a key makes its lookup fail. -/
theorem dictGet_dictDelete_self {α : Type} (d : List (String × α)) (k : String) :
    dictGet (dictDelete d k) k = none := by
  induction d with
  | nil => rfl
  | cons kv rest ih =>
      by_cases h : kv.1 = k
      · simp [dictDelete, h, ih]
      · simp [dictDelete, h, dictGet, ih]

/-- The `before_call` loop emits only before-hook events. -/
theorem runBeforeT_all_before (mws : List RPCMiddleware) (i : Nat) (req : RPCRequest) :
    ((runBeforeT mws i req).2).all isBeforeEvent = true := by
  induction mws generalizing i req with
  | nil => rfl
  | cons mw rest ih =>
      simp only [runBeforeT]
      cases h : mw.before_call req with
      | ok req2 => simp [List.all_cons, isBeforeEvent, ih (i + 1) req2]
      | error e => rfl

/-- When every `after_call` hook in the chain returns normally, the chain
runs to completion in registration order and returns some response. -/
theorem runAfterT_all_ok (mws : List RPCMiddleware) (i : Nat) (req : RPCRequest)
    (resp : RPCResponse)
    (hA : ∀ mw ∈ mws, ∀ q r, ∃ r2, mw.after_call q r = Except.ok r2) :
    ∃ r2, runAfterT mws i req resp = (Except.ok r2, afterHookIdx i mws.length) := by
  induction mws generalizing i resp with
  | nil => exact ⟨resp, rfl⟩
  | cons mw rest ih =>
      obtain ⟨r1, h1⟩ := hA mw (List.mem_cons_self mw rest) req resp
      obtain ⟨r2, h2⟩ := ih (i + 1) r1 (fun m hm => hA m (List.mem_cons_of_mem mw hm))
      refine ⟨r2, ?_⟩
      simp [runAfterT, h1, h2, afterHookIdx]

/-- When every `on_error` hook returns normally, the error chain returns
normally (with the first truthy substitute, or nothing). -/
theorem runOnErrorT_ok (mws : List RPCMiddleware) (i : Nat) (req : RPCRequest) (exn : PyExn)
    (hE : ∀ mw ∈ mws, ∀ q ex, ∃ o, mw.on_error q ex = Except.ok o) :
    ∃ o tr, runOnErrorT mws i req exn = (Except.ok o, tr) := by
  induction mws generalizing i with
  | nil => exact ⟨none, [], rfl⟩
  | cons mw rest ih =>
      obtain ⟨o, h1⟩ := hE mw (List.mem_cons_self mw rest) req exn
      obtain ⟨o2, tr2, h2⟩ := ih (i + 1) (fun m hm => hE m (List.mem_cons_of_mem mw hm))
      cases o with
      | some resp => exact ⟨some resp, [Event.errorHook i], by simp [runOnErrorT, h1]⟩
      | none => exact ⟨o2, Event.errorHook i :: tr2, by simp [runOnErrorT, h1, h2]⟩

/-- When every `on_error` hook returns normally, the execution stage
always produces a response (never propagates an exception). -/
theorem execStageT_ok (s : RPCServer) (req : RPCRequest) (m : RPCMethod)
    (hE : ∀ mw ∈ s.middleware, ∀ q ex, ∃ o, mw.on_error q ex = Except.ok o) :
    ∃ resp tr, execStageT s req m = (Except.ok resp, tr) := by
  unfold execStageT
  cases h : execMethod m req.params with
  | ok v => exact ⟨_, _, rfl⟩
  | error e =>
      cases e with
      | rpcError e0 => exact ⟨_, _, rfl⟩
      | typeError msg => exact ⟨_, _, rfl⟩
      | other msg =>
          obtain ⟨o, tr, hoe⟩ := runOnErrorT_ok s.middleware 0 req (PyExn.other msg) hE
          cases o with
          | some resp => exact ⟨resp, Event.handlerRun m.name :: tr, by simp [hoe]⟩
          | none =>
              exact ⟨RPCResponse.failure
                { code := RPCErrorCode.INTERNAL_ERROR, message := msg } req.id,
                Event.handlerRun m.name :: tr, by simp [hoe]⟩

/-- When every `before_call` hook returns normally and keeps the method
hashable, the before stage returns normally with a hashable method. -/
theorem runBeforeT_ok_hashable (mws : List RPCMiddleware) (i : Nat) (req : RPCRequest)
    (hB : ∀ mw ∈ mws, ∀ q, ∃ q2, mw.before_call q = Except.ok q2 ∧ q2.method.hashable = true)
    (hreq : req.method.hashable = true) :
    ∃ req2 tr, runBeforeT mws i req = ((req2, none), tr) ∧ req2.method.hashable = true := by
  induction mws generalizing i req with
  | nil => exact ⟨req, [], rfl, hreq⟩
  | cons mw rest ih =>
      obtain ⟨q2, h1, h2⟩ := hB mw (List.mem_cons_self mw rest) req
      obtain ⟨req2, tr, h3, h4⟩ :=
        ih (i + 1) q2 (fun m hm => hB m (List.mem_cons_of_mem mw hm)) h2
      exact ⟨req2, Event.beforeHook i :: tr, by simp [runBeforeT, h1, h3], h4⟩

/-- A hashable method value never makes the registry lookup raise. -/
theorem methodLookupE_ok (ms : List (String × RPCMethod)) (v : JValue)
    (hv : v.hashable = true) :
    ∃ om, methodLookupE ms v = Except.ok om := by
  cases v with
  | str s => exact ⟨dictGet ms s, rfl⟩
  | null => exact ⟨none, rfl⟩
  | bool b => exact ⟨none, rfl⟩
  | num n => exact ⟨none, rfl⟩
  | arr xs => simp [JValue.hashable] at hv
  | obj fs => simp [JValue.hashable] at hv

/-- With well-behaved middleware and a hashable method value, a call never
propagates an exception: it always yields a response or nothing. -/
theorem call_ok (s : RPCServer) (req : RPCRequest)
    (hB : ∀ mw ∈ s.middleware, ∀ q, ∃ q2,
      mw.before_call q = Except.ok q2 ∧ q2.method.hashable = true)
    (hA : ∀ mw ∈ s.middleware, ∀ q r, ∃ r2, mw.after_call q r = Except.ok r2)
    (hE : ∀ mw ∈ s.middleware, ∀ q ex, ∃ o, mw.on_error q ex = Except.ok o)
    (hreq : req.method.hashable = true) :
    ∃ o, s.call req = Except.ok o := by
  obtain ⟨req2, tr, hb, hh⟩ := runBeforeT_ok_hashable s.middleware 0 req hB hreq
  obtain ⟨om, hl⟩ := methodLookupE_ok s.methods req2.method hh
  cases om with
  | none =>
      refine ⟨some (RPCResponse.failure
        { code := RPCErrorCode.METHOD_NOT_FOUND,
          message := "Method not found: " ++ req2.method.pyStr } req2.id), ?_⟩
      simp only [RPCServer.call, RPCServer.callT, hb, hl]
  | some m =>
      obtain ⟨resp, tr2, he⟩ := execStageT_ok s req2 m hE
      obtain ⟨r2, ha⟩ := runAfterT_all_ok s.middleware 0 req2 resp hA
      refine ⟨if req2.is_notification then none else some r2, ?_⟩
      simp only [RPCServer.call, RPCServer.callT, hb, hl, he, ha]

/-- The batch loop over good elements never aborts and collects exactly
the per-element contributions in input order. -/
theorem handleJsonBatch_eq (s : RPCServer) (items : List JValue)
    (hB : ∀ mw ∈ s.middleware, ∀ q, ∃ q2,
      mw.before_call q = Except.ok q2 ∧ q2.method.hashable = true)
    (hA : ∀ mw ∈ s.middleware, ∀ q r, ∃ r2, mw.after_call q r = Except.ok r2)
    (hE : ∀ mw ∈ s.middleware, ∀ q ex, ∃ o, mw.on_error q ex = Except.ok o)
    (hitems : items.all isGoodElem = true) :
    handleJsonBatch s items = Except.ok (items.filterMap (batchElem s)) := by
  induction items with
  | nil => rfl
  | cons item rest ih =>
      rw [List.all_cons, Bool.and_eq_true] at hitems
      obtain ⟨hgood, hrest⟩ := hitems
      cases item with
      | null => simp [isGoodElem] at hgood
      | bool b => simp [isGoodElem] at hgood
      | num n => simp [isGoodElem] at hgood
      | str t => simp [isGoodElem] at hgood
      | arr xs => simp [isGoodElem] at hgood
      | obj fields =>
          have hreq : (RPCRequest.from_dict fields).method.hashable = true := by
            simpa [isGoodElem] using hgood
          obtain ⟨o, hcall⟩ := call_ok s (RPCRequest.from_dict fields) hB hA hE hreq
          simp only [handleJsonBatch, RPCRequest.fromDictE, hcall, ih hrest]
          cases o with
          | some r => simp [List.filterMap_cons, batchElem, RPCRequest.fromDictE, hcall]
          | none => simp [List.filterMap_cons, batchElem, RPCRequest.fromDictE, hcall]

/-- Request encode/decode round trip, needing only a well-formed id (a
JSON-null id would be conflated with an absent one). -/
theorem req_round_trip (r : RPCRequest) (hid : idWellFormed r.id = true) :
    RPCRequest.from_dict r.to_dict = r := by
  obtain ⟨m, p, i, j⟩ := r
  cases i with
  | none => rfl
  | some v =>
      cases v with
      | null => simp [idWellFormed] at hid
      | bool b => simp [idWellFormed] at hid
      | arr xs => simp [idWellFormed] at hid
      | obj fs => simp [idWellFormed] at hid
      | num n => rfl
      | str t => rfl

/-- Response encode/decode round trip for well-formed responses (exactly
one of result/error set, non-empty error dict, well-formed id). -/
theorem resp_round_trip (r : RPCResponse) (h : responseWellFormed r = true) :
    RPCResponse.fromDictSpec r.to_dict = r := by
  obtain ⟨res, err, i, j⟩ := r
  rw [responseWellFormed, Bool.and_eq_true] at h
  obtain ⟨herr, hid⟩ := h
  cases err with
  | none =>
      cases i with
      | none => rfl
      | some v =>
          cases v with
          | null => simp [idWellFormed] at hid
          | bool b => simp [idWellFormed] at hid
          | arr xs => simp [idWellFormed] at hid
          | obj fs => simp [idWellFormed] at hid
          | num n => rfl
          | str t => rfl
  | some e =>
      cases e with
      | nil => simp [errorWellFormed] at herr
      | cons kv rest =>
          cases res with
          | null =>
              cases i with
              | none => rfl
              | some v =>
                  cases v with
                  | null => simp [idWellFormed] at hid
                  | bool b => simp [idWellFormed] at hid
                  | arr xs => simp [idWellFormed] at hid
                  | obj fs => simp [idWellFormed] at hid
                  | num n => rfl
                  | str t => rfl
          | bool b => simp [errorWellFormed] at herr
          | num n => simp [errorWellFormed] at herr
          | str t => simp [errorWellFormed] at herr
          | arr xs => simp [errorWellFormed] at herr
          | obj fs => simp [errorWellFormed] at herr

/-- A server with nothing registered and no middleware. -/
def emptySrv : RPCServer := { methods := [], middleware := [] }

/-- The `add(a, b) = a + b` example handler: succeeds on two numeric
positional arguments, otherwise the Python call raises `TypeError`. -/
def addHandler : Handler := fun args =>
  match args with
  | CallArgs.positional [JValue.num a, JValue.num b] => Except.ok (JValue.num (a + b))
  | _ => Except.error (PyExn.typeError "add() argument mismatch")

/-- A server with just `add` registered. -/
def addServer : RPCServer := RPCServer.register emptySrv "add" addHandler

/-- A middleware whose `after_call` observably rewrites the response id
to 99, used to detect whether the after chain ran. -/
def markAfter : RPCMiddleware :=
  { after_call := fun _ r => Except.ok { r with id := some (JValue.num 99) } }

/-- A server with only the marking middleware installed. -/
def srvMark : RPCServer := { middleware := [markAfter] }

/-- A non-notification request for an unregistered method. -/
def reqMissing : RPCRequest := { method := JValue.str "missing", id := some (JValue.num 7) }

/-- A handler that raises a generic (non-protocol) exception. -/
def boomHandler : Handler := fun _ => Except.error (PyExn.other "boom")

/-- The registered form of `boomHandler`. -/
def boomMethod : RPCMethod := { name := "boom", handler := boomHandler }

/-- A server with the failing handler and one default (no-op) middleware. -/
def srvBoom : RPCServer :=
  { methods := [("boom", boomMethod)], middleware := [({} : RPCMiddleware)] }

/-- A non-notification request for the failing handler. -/
def reqBoom : RPCRequest := { method := JValue.str "boom", id := some (JValue.num 1) }

/-- The spec scenario request: unregistered method `sub` with id 5. -/
def reqSub : RPCRequest := { method := JValue.str "sub", id := some (JValue.num 5) }

/-- A notification (absent id) naming an unregistered method. -/
def notifReq : RPCRequest := { method := JValue.str "nope" }

/-- A batch whose middle element is a bare number, not an object. -/
def cexBatch : List JValue :=
  [JValue.obj [("method", JValue.str "add"),
               ("params", JValue.arr [JValue.num 1, JValue.num 2]), ("id", JValue.num 1)],
   JValue.num 2,
   JValue.obj [("method", JValue.str "add"),
               ("params", JValue.arr [JValue.num 3, JValue.num 4]), ("id", JValue.num 3)]]

/-- The spec batch scenario: ids 1 and 3 succeed, id 2 names an unknown
method, and a trailing notification contributes nothing. -/
def batchItems : List JValue :=
  [JValue.obj [("method", JValue.str "add"),
               ("params", JValue.arr [JValue.num 1, JValue.num 2]), ("id", JValue.num 1)],
   JValue.obj [("method", JValue.str "sub"),
               ("params", JValue.arr [JValue.num 1, JValue.num 2]), ("id", JValue.num 2)],
   JValue.obj [("method", JValue.str "add"),
               ("params", JValue.arr [JValue.num 3, JValue.num 4]), ("id", JValue.num 3)],
   JValue.obj [("method", JValue.str "add"),
               ("params", JValue.arr [JValue.num 1, JValue.num 1])]]

/-- A middleware whose `before_call` raises a protocol-level error, as
`AuthMiddleware` is designed to do on a missing token. -/
def raiseBefore : RPCMiddleware :=
  { before_call := fun _ => Except.error (PyExn.rpcError
      { code := -32001, message := "Authentication required" }) }

/-- A server with only the raising middleware. -/
def srvAuthFail : RPCServer := { middleware := [raiseBefore] }

/-- A non-notification request sent through the raising middleware. -/
def reqAuth : RPCRequest := { method := JValue.str "add", id := some (JValue.num 7) }

/-- A server with `TimingMiddleware` installed first. -/
def srvTiming : RPCServer := { middleware := [TimingMiddleware] }

/-- A non-notification request sent through `TimingMiddleware`. -/
def reqTimed : RPCRequest := { method := JValue.str "add", id := some (JValue.num 1) }

/-- A well-formed request for the round-trip claim. -/
def wfReq : RPCRequest :=
  { method := JValue.str "add", params := JValue.arr [JValue.num 1, JValue.num 2],
    id := some (JValue.num 1) }

/-- A well-formed success response for the round-trip claim. -/
def wfResp : RPCResponse := RPCResponse.success (JValue.num 3) (some (JValue.num 1))

/-- C1: the claim says a notification (absent id) yields no output
Response from `call` on every outcome, including before-hook protocol
errors, method-not-found and handler failure.  The source violates this:
the method-not-found branch (and the before-hook error branches) are
early returns placed before the notification check, so a notification
naming an unknown method gets a failure Response back.  This theorem
evaluates `RPCServer.call` at that failing input. -/
theorem notification_gets_reply :
    RPCServer.call emptySrv notifReq =
      Except.ok (some (RPCResponse.failure
        { code := RPCErrorCode.METHOD_NOT_FOUND, message := "Method not found: nope" }
        none)) ∧
    RPCServer.call emptySrv notifReq ≠ Except.ok none := by
  have h1 : RPCServer.call emptySrv notifReq =
      Except.ok (some (RPCResponse.failure
        { code := RPCErrorCode.METHOD_NOT_FOUND, message := "Method not found: nope" }
        none)) := rfl
  refine ⟨h1, fun h => ?_⟩
  rw [h1] at h
  exact Option.noConfusion (Except.ok.inj h)

/-- C2 counterexample: with a middleware whose `after_call` rewrites the
response id to 99, a call to an unknown method returns the untransformed
method-not-found response (id still 7) and the trace holds no after-hook
event: the `after_call` chain did not run, refuting the claim that it
runs even when the method is absent from the registry. -/
theorem after_hooks_skipped_on_unknown_method :
    RPCServer.callT srvMark reqMissing =
      (Except.ok (some (RPCResponse.failure
        { code := RPCErrorCode.METHOD_NOT_FOUND, message := "Method not found: missing" }
        (some (JValue.num 7)))), [Event.beforeHook 0]) ∧
    Event.afterHook 0 ∉ [Event.beforeHook 0] :=
  ⟨rfl, by decide⟩

/-- C2 (amended): once the before stage passes and the method is found in
the registry, the `after_call` hooks of all registered middleware run
across the chain in registration order regardless of the outcome of the
execution stage (success, protocol error, invalid params, or a generic
handler failure), provided the after and error hooks themselves return
normally, and the call returns normally; when the method is absent the
method-not-found response is returned without running any after hook. -/
theorem after_hooks_run_when_method_found (s : RPCServer) (req req2 : RPCRequest)
    (tr : List Event) (m : RPCMethod)
    (hA : ∀ mw ∈ s.middleware, ∀ q r, ∃ r2, mw.after_call q r = Except.ok r2)
    (hE : ∀ mw ∈ s.middleware, ∀ q ex, ∃ o, mw.on_error q ex = Except.ok o)
    (hb : runBeforeT s.middleware 0 req = ((req2, none), tr))
    (hl : methodLookupE s.methods req2.method = Except.ok (some m)) :
    (s.callT req).2 = tr ++ (execStageT s req2 m).2 ++ afterHookIdx 0 s.middleware.length ∧
    exOk (s.callT req).1 = true := by
  obtain ⟨resp, tr2, he⟩ := execStageT_ok s req2 m hE
  obtain ⟨r2, ha⟩ := runAfterT_all_ok s.middleware 0 req2 resp hA
  constructor
  · simp only [RPCServer.callT, hb, hl, he, ha]
  · simp only [RPCServer.callT, hb, hl, he, ha, exOk]

/-- C2 witness: a server with one default middleware and a handler that
raises a generic exception; the after hook still runs (trace ends with
after hook 0) and the call returns normally. -/
theorem after_hooks_run_when_method_found_applied :
    (RPCServer.callT srvBoom reqBoom).2 =
      [Event.beforeHook 0] ++ (execStageT srvBoom reqBoom boomMethod).2 ++ afterHookIdx 0 1 ∧
    exOk (RPCServer.callT srvBoom reqBoom).1 = true :=
  after_hooks_run_when_method_found srvBoom reqBoom reqBoom [Event.beforeHook 0] boomMethod
    (fun mw hm q r => by
      have hmw : mw = ({} : RPCMiddleware) := List.eq_of_mem_singleton hm
      subst hmw
      exact ⟨r, rfl⟩)
    (fun mw hm q ex => by
      have hmw : mw = ({} : RPCMiddleware) := List.eq_of_mem_singleton hm
      subst hmw
      exact ⟨none, rfl⟩)
    rfl rfl

/-- C3 counterexample: in a batch whose middle element is the bare number
2 (legal JSON, but not an object), decoding that element raises
`AttributeError`, aborting the whole batch: no element produces output
and the caller sees an exception, refuting the claim that a decode
failure for one element never aborts the others. -/
theorem batch_aborts_on_non_object_element :
    RPCServer.handle_json addServer (JsonText.decoded (JValue.arr cexBatch)) =
      Except.error (PyExn.other (attrErrGet "int")) := rfl

/-- C3 (amended): for a non-empty batch all of whose elements are objects
with hashable method values, and middleware whose hooks return normally
(with before hooks keeping methods hashable), every element is decoded
and dispatched independently in sequence order and the output is exactly
the ordered `filterMap` of per-element contributions (notifications
contribute nothing); but a non-object element or an unhashable method
raises and aborts the entire batch. -/
theorem batch_elements_processed_independently (s : RPCServer) (items : List JValue)
    (hne : items ≠ [])
    (hitems : items.all isGoodElem = true)
    (hB : ∀ mw ∈ s.middleware, ∀ q, ∃ q2,
      mw.before_call q = Except.ok q2 ∧ q2.method.hashable = true)
    (hA : ∀ mw ∈ s.middleware, ∀ q r, ∃ r2, mw.after_call q r = Except.ok r2)
    (hE : ∀ mw ∈ s.middleware, ∀ q ex, ∃ o, mw.on_error q ex = Except.ok o) :
    s.handle_json (JsonText.decoded (JValue.arr items)) =
      Except.ok (some (JValue.arr (items.filterMap (batchElem s)))) := by
  have hemp : items.isEmpty = false := by
    cases items with
    | nil => exact absurd rfl hne
    | cons a l => rfl
  simp [RPCServer.handle_json, hemp, handleJsonBatch_eq s items hB hA hE hitems]

/-- C3 witness: the spec batch scenario on the `add` server: ids 1 and 3
succeed, id 2 is method-not-found, the trailing notification contributes
nothing, and order is preserved. -/
theorem batch_elements_processed_independently_applied :
    RPCServer.handle_json addServer (JsonText.decoded (JValue.arr batchItems)) =
      Except.ok (some (JValue.arr
        [JValue.obj [("jsonrpc", JValue.str "2.0"), ("id", JValue.num 1),
          ("result", JValue.num 3)],
         JValue.obj [("jsonrpc", JValue.str "2.0"), ("id", JValue.num 2),
          ("error", JValue.obj [("code", JValue.num (-32601)),
            ("message", JValue.str "Method not found: sub")])],
         JValue.obj [("jsonrpc", JValue.str "2.0"), ("id", JValue.num 3),
          ("result", JValue.num 7)]])) :=
  batch_elements_processed_independently addServer batchItems
    (List.cons_ne_nil _ _) rfl
    (fun mw hm => absurd hm (List.not_mem_nil mw))
    (fun mw hm => absurd hm (List.not_mem_nil mw))
    (fun mw hm => absurd hm (List.not_mem_nil mw))

/-- C4 counterexample: the decoded value 42 (well-formed JSON text that is
neither a list nor an object) makes `handle_json` raise `AttributeError`
instead of returning a parse-error Response, refuting the claim that such
input yields a -32700 Response and never raises. -/
theorem scalar_envelope_raises :
    RPCServer.handle_json emptySrv (JsonText.decoded (JValue.num 42)) =
      Except.error (PyExn.other (attrErrGet "int")) := rfl

/-- C4 (amended): for undecodable input text, `handle_json` returns a
single Response with the -32700 parse-error code and a null id and raises
nothing; but for decoded content that is neither a list nor an object it
raises `AttributeError` rather than returning a Response. -/
theorem malformed_envelope_yields_parse_error (s : RPCServer) (msg : String) (v : JValue)
    (hv : v.isContainer = false) :
    s.handle_json (JsonText.malformed msg) =
      Except.ok (some (JValue.obj [("jsonrpc", JValue.str "2.0"), ("id", JValue.null),
        ("error", JValue.obj [("code", JValue.num (-32700)), ("message", JValue.str msg)])])) ∧
    s.handle_json (JsonText.decoded v) =
      Except.error (PyExn.other (attrErrGet (pyTypeName v))) := by
  refine ⟨rfl, ?_⟩
  cases v with
  | null => rfl
  | bool b => rfl
  | num n => rfl
  | str t => rfl
  | arr xs => simp [JValue.isContainer] at hv
  | obj fs => simp [JValue.isContainer] at hv

/-- C4 witness: a concrete undecodable text yields the parse-error
Response, and the decoded scalar string payload raises. -/
theorem malformed_envelope_yields_parse_error_applied :
    RPCServer.handle_json addServer (JsonText.malformed "Expecting value") =
      Except.ok (some (JValue.obj [("jsonrpc", JValue.str "2.0"), ("id", JValue.null),
        ("error", JValue.obj [("code", JValue.num (-32700)),
          ("message", JValue.str "Expecting value")])])) ∧
    RPCServer.handle_json addServer (JsonText.decoded (JValue.str "x")) =
      Except.error (PyExn.other (attrErrGet "str")) :=
  malformed_envelope_yields_parse_error addServer "Expecting value" (JValue.str "x") rfl

/-- C5: when some `before_call` hook raises a protocol-level `RPCError`,
the pipeline short-circuits: the call immediately yields a failure
Response carrying exactly that error (code, message and data via
`RPCError.to_dict`) with the id of the request as transformed so far, and
the trace holds only before-hook events - no handler ran, no after hook
ran. -/
theorem before_hook_error_short_circuits (s : RPCServer) (req req2 : RPCRequest)
    (e : RPCError) (tr : List Event)
    (hb : runBeforeT s.middleware 0 req = ((req2, some (PyExn.rpcError e)), tr)) :
    s.callT req = (Except.ok (some (RPCResponse.failure e req2.id)), tr) ∧
    tr.all isBeforeEvent = true := by
  constructor
  · simp only [RPCServer.callT, hb]
  · have h := runBeforeT_all_before s.middleware 0 req
    rw [hb] at h
    exact h

/-- C5 witness: one middleware raising the auth protocol error makes the
call return that exact failure with the request id, with an empty trace. -/
theorem before_hook_error_short_circuits_applied :
    RPCServer.callT srvAuthFail reqAuth =
      (Except.ok (some (RPCResponse.failure
        { code := -32001, message := "Authentication required" }
        (some (JValue.num 7)))), []) :=
  (before_hook_error_short_circuits srvAuthFail reqAuth reqAuth
    { code := -32001, message := "Authentication required" } [] rfl).1

/-- C6: for every server, the empty batch yields one single failure
Response object (not wrapped in an array) with code -32600
(`INVALID_REQUEST`), message "Empty batch", and a null id. -/
theorem empty_batch_yields_invalid_request (s : RPCServer) :
    s.handle_json (JsonText.decoded (JValue.arr [])) =
      Except.ok (some (JValue.obj [("jsonrpc", JValue.str "2.0"), ("id", JValue.null),
        ("error", JValue.obj [("code", JValue.num (-32600)),
          ("message", JValue.str "Empty batch")])])) := rfl

/-- C7: for a non-notification request whose (string) method has no
registry entry, once the before stage passes, dispatch yields a failure
Response with code -32601 echoing the request id, with message "Method
not found: " followed by the method name, regardless of the shape of
params (which is unconstrained here). -/
theorem unknown_method_yields_method_not_found (s : RPCServer) (req req2 : RPCRequest)
    (tr : List Event) (name : String) (i : JValue)
    (hb : runBeforeT s.middleware 0 req = ((req2, none), tr))
    (hm : req2.method = JValue.str name)
    (hl : dictGet s.methods name = none)
    (hid : req2.id = some i) :
    s.callT req =
      (Except.ok (some (RPCResponse.failure
        { code := RPCErrorCode.METHOD_NOT_FOUND, message := "Method not found: " ++ name }
        (some i))), tr) := by
  simp only [RPCServer.callT, hb, hm, methodLookupE, hl, JValue.pyStr, hid]

/-- C7 witness: the spec scenario - unregistered method `sub` with id 5
on the `add` server yields the -32601 response echoing id 5. -/
theorem unknown_method_yields_method_not_found_applied :
    RPCServer.callT addServer reqSub =
      (Except.ok (some (RPCResponse.failure
        { code := RPCErrorCode.METHOD_NOT_FOUND, message := "Method not found: sub" }
        (some (JValue.num 5)))), []) :=
  unknown_method_yields_method_not_found addServer reqSub reqSub [] "sub" (JValue.num 5)
    rfl rfl rfl rfl

/-- C8: registry laws.  `register` then `lookup` finds the entry with the
registered handler; `unregister` after `register` reports the entry
existed and makes the lookup fail; `unregister` on a never-registered
name returns false; and `unregister` is idempotent - a second unregister
of the same name returns false and leaves the registry unchanged. -/
theorem registry_register_unregister_lookup (s : RPCServer) (name : String)
    (h : Handler) (d : String)
    (hfresh : s.lookup name = none) :
    (s.register name h d).lookup name =
      some { name := name, handler := h, description := d } ∧
    ((s.register name h d).unregister name).1 = true ∧
    (((s.register name h d).unregister name).2).lookup name = none ∧
    (s.unregister name).1 = false ∧
    (((s.register name h d).unregister name).2).unregister name =
      (false, ((s.register name h d).unregister name).2) := by
  rw [RPCServer.lookup] at hfresh
  refine ⟨?_, ?_, ?_, ?_, ?_⟩
  · simp only [RPCServer.lookup, RPCServer.register]
    exact dictGet_dictInsert_self s.methods name _
  · simp [RPCServer.unregister, RPCServer.register, dictGet_dictInsert_self]
  · simp [RPCServer.unregister, RPCServer.register, RPCServer.lookup,
      dictGet_dictInsert_self, dictGet_dictDelete_self]
  · simp [RPCServer.unregister, hfresh]
  · simp [RPCServer.unregister, RPCServer.register,
      dictGet_dictInsert_self, dictGet_dictDelete_self]

/-- C8 witness: the laws evaluated on the empty server with the `add`
handler. -/
theorem registry_register_unregister_lookup_applied :
    (emptySrv.register "add" addHandler "").lookup "add" =
      some { name := "add", handler := addHandler, description := "" } ∧
    ((emptySrv.register "add" addHandler "").unregister "add").1 = true ∧
    (((emptySrv.register "add" addHandler "").unregister "add").2).lookup "add" = none ∧
    (emptySrv.unregister "add").1 = false ∧
    (((emptySrv.register "add" addHandler "").unregister "add").2).unregister "add" =
      (false, ((emptySrv.register "add" addHandler "").unregister "add").2) :=
  registry_register_unregister_lookup emptySrv "add" addHandler "" rfl

/-- C9: encode/decode round trip for every well-formed Request (non-empty
method string, params a sequence or mapping, id a string, number, or
absent) and every well-formed Response (exactly one of result/error set,
well-formed id), where the Response decoder is modelled from the wire
envelope of the spec because the source defines none. -/
theorem request_response_round_trip (req : RPCRequest) (resp : RPCResponse)
    (h1 : requestWellFormed req = true) (h2 : responseWellFormed resp = true) :
    RPCRequest.from_dict req.to_dict = req ∧
    RPCResponse.fromDictSpec resp.to_dict = resp := by
  constructor
  · apply req_round_trip
    rw [requestWellFormed, Bool.and_eq_true] at h1
    exact h1.2
  · exact resp_round_trip resp h2

/-- C9 witness: the round trip evaluated on the spec scenario request and
its success response. -/
theorem request_response_round_trip_applied :
    RPCRequest.from_dict wfReq.to_dict = wfReq ∧
    RPCResponse.fromDictSpec wfResp.to_dict = wfResp :=
  request_response_round_trip wfReq wfResp (by decide) (by decide)

/-- C10: `TimingMiddleware.before_call` reads `request.metadata`, a field
`RPCRequest` does not declare, so it raises `AttributeError`; with it
installed first, every non-notification call returns the -32603
`INTERNAL_ERROR` failure Response produced by the before-hook exception
path, with an empty trace - no handler is ever invoked. -/
theorem timing_middleware_breaks_all_calls (s : RPCServer) (rest : List RPCMiddleware)
    (req : RPCRequest)
    (hmw : s.middleware = TimingMiddleware :: rest)
    (_hid : req.id.isSome = true) :
    s.callT req =
      (Except.ok (some (RPCResponse.failure
        { code := RPCErrorCode.INTERNAL_ERROR, message := attrErrMetadata } req.id)), []) := by
  simp only [RPCServer.callT, hmw, runBeforeT, TimingMiddleware, PyExn.str]

/-- C10 witness: a concrete call through `TimingMiddleware` yields the
internal-error response with the attribute-error message and runs
nothing. -/
theorem timing_middleware_breaks_all_calls_applied :
    RPCServer.callT srvTiming reqTimed =
      (Except.ok (some (RPCResponse.failure
        { code := RPCErrorCode.INTERNAL_ERROR, message := attrErrMetadata }
        (some (JValue.num 1)))), []) :=
  timing_middleware_breaks_all_calls srvTiming [] reqTimed rfl rfl
